import Mathlib

/-!
Shallow embedding of the civic-report issue workflow core
(`server/routes/issues.js`, `server/models/Issue.js`,
`server/models/Notification.js`, `server/routes/notifications.js`,
`server/models/User.js`).

Mongo documents become Lean structures; identifiers become `Nat`;
`Date` values become `Nat` timestamps threaded as a `now` parameter;
fields that Mongoose leaves `undefined` become `Option`; route handlers
become pure functions from their inputs (actor, loaded documents, request
body, clock) to the saved documents, the HTTP-level response class, and
the list of notification records inserted.
-/

namespace CivicReport

/-- Issue status enumeration from the Issue schema. -/
inductive Status
| pending
| in_progress
| pending_verification
| verified_solved
| escalated
| reopened
deriving DecidableEq, Repr, Fintype

/-- User role enumeration from the User schema. -/
inductive Role
| citizen
| low_admin
| high_admin
deriving DecidableEq, Repr, Fintype

/-- Issue priority enumeration from the Issue schema. -/
inductive Priority
| low
| medium
| high
| urgent
deriving DecidableEq, Repr, Fintype

/-- Notification priority enumeration from the Notification schema
(`low | medium | high`, default `medium`). -/
inductive NotifPriority
| low
| medium
| high
deriving DecidableEq, Repr, Fintype

/-- Notification type enumeration from the Notification schema. -/
inductive NotifType
| issue_created
| issue_assigned
| issue_updated
| issue_escalated
| issue_resolved
| verification_required
| issue_reopened
| comment_added
| status_changed
deriving DecidableEq, Repr, Fintype

/-- One entry of `statusHistory` (subdocument of the Issue schema).
`changedAt` carries the `Date.now` default applied when the entry is
inserted. -/
structure StatusChange where
  status : Status
  changedBy : Nat
  changedAt : Nat
  reason : String
deriving DecidableEq, Repr

/-- One entry of `comments` (subdocument of the Issue schema). -/
structure Comment where
  text : String
  author : Nat
  createdAt : Nat
  isInternal : Bool
deriving DecidableEq, Repr

/-- An Issue document. `location` is flattened to its `zone` label plus
`address`; the logic embedded here never reads the coordinates. -/
structure Issue where
  id : Nat
  title : String
  description : String
  category : String
  priority : Priority
  status : Status
  zone : String
  address : String
  reportedBy : Nat
  assignedTo : Option Nat
  assignedDepartment : Option String
  assignedAt : Option Nat
  dueDate : Option Nat
  resolvedAt : Option Nat
  verifiedAt : Option Nat
  escalatedAt : Option Nat
  statusHistory : List StatusChange
  comments : List Comment
deriving DecidableEq, Repr

/-- A User document (the fields the workflow core reads). Note the User
schema declares NO `assignedIssues` path. -/
structure User where
  id : Nat
  role : Role
  assignedZones : List String
  department : Option String
  isActive : Bool
deriving DecidableEq, Repr

/-- `issueSchema.methods.addStatusChange`: pushes a history entry and sets
the status field. `changedAt` is the `Date.now` schema default applied to
the pushed subdocument; the JS call site omits `reason` for a default of
the empty string, which callers here pass explicitly. -/
def Issue.addStatusChange (i : Issue) (newStatus : Status) (changedBy : Nat)
    (reason : String) (now : Nat) : Issue :=
  { i with
      statusHistory := i.statusHistory ++
        [{ status := newStatus, changedBy := changedBy, changedAt := now, reason := reason }],
      status := newStatus }

/-- `isValidStatusTransition(currentStatus, newStatus, userRole)` from
`issues.js`. The role parameter is accepted and ignored, as in the
source. -/
def isValidStatusTransition (currentStatus newStatus : Status) (userRole : Role) : Bool :=
  let targets : List Status :=
    match currentStatus with
    | .pending => [.in_progress, .escalated]
    | .in_progress => [.pending_verification, .escalated]
    | .pending_verification => [.verified_solved, .reopened]
    | .verified_solved => [.reopened]
    | .escalated => [.in_progress, .pending_verification]
    | .reopened => [.in_progress, .escalated]
  targets.contains newStatus

/-- `canAssignIssue(user, issue)` from `issues.js`. The department test is
the JS strict equality `user.department === issue.assignedDepartment`,
which is also true when both sides are `undefined`; `Option` equality
models that. -/
def canAssignIssue (user : User) (issue : Issue) : Bool :=
  match user.role with
  | .high_admin => true
  | .low_admin =>
      user.assignedZones.contains issue.zone ||
      user.department == issue.assignedDepartment
  | .citizen => false

/-- `canUpdateStatus(user, issue, newStatus)` from `issues.js`. -/
def canUpdateStatus (user : User) (issue : Issue) (newStatus : Status) : Bool :=
  match user.role with
  | .high_admin => true
  | .low_admin =>
      issue.assignedTo == some user.id ||
      user.assignedZones.contains issue.zone
  | .citizen =>
      issue.reportedBy == user.id &&
      [Status.pending_verification, Status.reopened].contains newStatus

/-- `hasIssueAccess(user, issue)` from `issues.js` (gate for the comment
route). -/
def hasIssueAccess (user : User) (issue : Issue) : Bool :=
  match user.role with
  | .high_admin => true
  | .low_admin =>
      issue.assignedTo == some user.id ||
      user.assignedZones.contains issue.zone
  | .citizen => issue.reportedBy == user.id

/-- `canAddWorkProof(user, issue)` from `issues.js`. -/
def canAddWorkProof (user : User) (issue : Issue) : Bool :=
  match user.role with
  | .high_admin => true
  | .low_admin => issue.assignedTo == some user.id
  | .citizen => false

/-- A notification record as it is stored by `Notification.insertMany` /
`notification.save()`: route code that pushes a record without a
`priority` field gets the Notification schema default `medium`, which is
written out explicitly here. -/
structure NotificationRec where
  recipient : Nat
  type : NotifType
  title : String
  message : String
  relatedIssue : Option Nat
  priority : NotifPriority
deriving DecidableEq, Repr

/-- The `User.find(\x7b role: 'high_admin' \x7d)` directory query. -/
def highAdmins (users : List User) : List User :=
  users.filter (fun u => u.role == Role.high_admin)

/-- `handleStatusChangeNotifications(issue, newStatus, changedBy)` from
`issues.js`: the per-event switch building the inserted records.
`changedBy` is never read by the source body and is dropped here. -/
def handleStatusChangeNotifications (users : List User) (issue : Issue)
    (newStatus : Status) : List NotificationRec :=
  match newStatus with
  | .in_progress =>
      [{ recipient := issue.reportedBy, type := .issue_updated,
         title := "Issue In Progress",
         message := "Your reported issue \"" ++ issue.title ++ "\" is now being worked on",
         relatedIssue := some issue.id, priority := .medium }]
  | .pending_verification =>
      ((highAdmins users).map (fun admin =>
        { recipient := admin.id, type := .verification_required,
          title := "Verification Required",
          message := "Issue \"" ++ issue.title ++ "\" requires verification",
          relatedIssue := some issue.id, priority := .high })) ++
      [{ recipient := issue.reportedBy, type := .verification_required,
         title := "Issue Resolution Pending Verification",
         message := "Your reported issue \"" ++ issue.title ++
           "\" has been marked as resolved and is pending verification",
         relatedIssue := some issue.id, priority := .medium }]
  | .verified_solved =>
      [{ recipient := issue.reportedBy, type := .issue_resolved,
         title := "Issue Resolved",
         message := "Your reported issue \"" ++ issue.title ++ "\" has been verified as resolved",
         relatedIssue := some issue.id, priority := .medium }]
  | .escalated =>
      (highAdmins users).map (fun admin =>
        { recipient := admin.id, type := .issue_escalated,
          title := "Issue Escalated",
          message := "Issue \"" ++ issue.title ++ "\" has been escalated and requires your attention",
          relatedIssue := some issue.id, priority := .high })
  | .reopened =>
      match issue.assignedTo with
      | some assignee =>
          [{ recipient := assignee, type := .issue_reopened,
             title := "Issue Reopened",
             message := "Issue \"" ++ issue.title ++ "\" has been reopened",
             relatedIssue := some issue.id, priority := .high }]
      | none => []
  | .pending => []

/-- The response classes the PUT `/api/issues/:id/status` handler can
produce once the issue is loaded (404 and body-validation failures are
outside this embedding, which takes a typed status and a loaded issue). -/
inductive UpdateResponse
| success
| accessDenied
| invalidTransition
deriving DecidableEq, Repr

/-- Outcome of the status-update handler: the issue document as saved (the
input document when the handler rejects), the response class, and the
notification records inserted. -/
structure UpdateResult where
  issue : Issue
  response : UpdateResponse
  notifications : List NotificationRec
deriving DecidableEq, Repr

/-- PUT `/api/issues/:id/status` from `issues.js`: permission check, then
transition check, then `addStatusChange`, then the per-status timestamp
stamping, then notification dispatch. -/
def updateStatusHandler (users : List User) (actor : User) (issue : Issue)
    (newStatus : Status) (reason : String) (now : Nat) : UpdateResult :=
  if canUpdateStatus actor issue newStatus then
    if isValidStatusTransition issue.status newStatus actor.role then
      let updated := issue.addStatusChange newStatus actor.id reason now
      let updated :=
        match newStatus with
        | .pending_verification => { updated with resolvedAt := some now }
        | .verified_solved => { updated with verifiedAt := some now }
        | .escalated => { updated with escalatedAt := some now }
        | _ => updated
      { issue := updated, response := .success,
        notifications := handleStatusChangeNotifications users updated newStatus }
    else
      { issue := issue, response := .invalidTransition, notifications := [] }
  else
    { issue := issue, response := .accessDenied, notifications := [] }

/-- `autoAssignIssue(issue)` from `issues.js`. The source runs
`User.findOne(\x7b role, assignedZones: zone, isActive \x7d).sort(\x7b assignedIssues: 1 \x7d)`;
the User schema has no `assignedIssues` path, so every matching document
has an equal (missing) sort key and the query returns the first eligible
user in directory order. On a hit it sets `assignedTo`, the department,
`assignedAt`, and writes `status` directly (no `addStatusChange` call),
then inserts one `issue_assigned` notification. -/
def autoAssignIssue (users : List User) (issue : Issue) (now : Nat) :
    Issue × List NotificationRec :=
  match (users.filter (fun u =>
      u.role == Role.low_admin && u.assignedZones.contains issue.zone && u.isActive)).head? with
  | some admin =>
      ({ issue with
           assignedTo := some admin.id,
           assignedDepartment := admin.department,
           assignedAt := some now,
           status := Status.in_progress },
       [{ recipient := admin.id, type := .issue_assigned,
          title := "Issue Auto-Assigned",
          message := "A new " ++ issue.category ++ " issue has been auto-assigned to you",
          relatedIssue := some issue.id,
          priority := if issue.priority == Priority.urgent then .high else .medium }])
  | none => (issue, [])

/-- POST `/api/issues` from `issues.js`: builds the document with the
schema defaults (`status` pending, empty history and comments), runs
`autoAssignIssue`, then fans out one `issue_created` record to every admin
(both roles), priority `high` when the request priority is `urgent`. -/
def createIssueHandler (users : List User) (reporter : Nat) (issueId : Nat)
    (title description category zone address : String) (priority : Priority)
    (now : Nat) : Issue × List NotificationRec :=
  let issue : Issue :=
    { id := issueId, title := title, description := description,
      category := category, priority := priority, status := .pending,
      zone := zone, address := address, reportedBy := reporter,
      assignedTo := none, assignedDepartment := none, assignedAt := none,
      dueDate := none, resolvedAt := none, verifiedAt := none,
      escalatedAt := none, statusHistory := [], comments := [] }
  let assigned := autoAssignIssue users issue now
  let admins := users.filter (fun u =>
    u.role == Role.low_admin || u.role == Role.high_admin)
  let createdNotifs := admins.map (fun a =>
    { recipient := a.id, type := .issue_created,
      title := "New Issue Reported",
      message := "A new " ++ category ++ " issue has been reported in " ++ zone,
      relatedIssue := some issueId,
      priority := if priority == Priority.urgent then NotifPriority.high
                  else NotifPriority.medium })
  (assigned.1, assigned.2 ++ createdNotifs)

/-- Response classes of the comment route once the issue is loaded. -/
inductive CommentResponse
| ok
| accessDenied
deriving DecidableEq, Repr

/-- POST `/api/issues/:id/comments` from `issues.js`: access gate, then a
comment push with the internal flag forced to false for non-admin
authors, then a `comment_added` record per participant (reporter plus
assignee when present), inserted without a priority field (schema default
`medium`). -/
def addCommentHandler (actor : User) (issue : Issue) (text : String)
    (isInternal : Bool) (now : Nat) :
    Issue × CommentResponse × List NotificationRec :=
  if hasIssueAccess actor issue then
    let updated :=
      { issue with
          comments := issue.comments ++
            [{ text := text, author := actor.id, createdAt := now,
               isInternal := isInternal &&
                 [Role.low_admin, Role.high_admin].contains actor.role }] }
    let participants := issue.reportedBy ::
      (match issue.assignedTo with | some a => [a] | none => [])
    (updated, .ok,
     participants.map (fun p =>
       { recipient := p, type := .comment_added,
         title := "New Comment",
         message := "A new comment was added to issue: " ++ issue.title,
         relatedIssue := some issue.id, priority := .medium }))
  else
    (issue, .accessDenied, [])

/-- A Notification document as stored (the fields the notification routes
read or write). -/
structure StoredNotification where
  id : Nat
  recipient : Nat
  type : NotifType
  title : String
  message : String
  relatedIssue : Option Nat
  isRead : Bool
  readAt : Option Nat
  priority : NotifPriority
deriving DecidableEq, Repr

/-- `notificationSchema.methods.markAsRead` from `Notification.js`. -/
def StoredNotification.markAsRead (n : StoredNotification) (now : Nat) :
    StoredNotification :=
  { n with isRead := true, readAt := some now }

/-- Response classes of the notification routes. -/
inductive NotifResponse
| ok
| notFound
| accessDenied
deriving DecidableEq, Repr

/-- PUT `/api/notifications/:id/read` from `routes/notifications.js`:
`findById`, ownership check against the requester, then
`markAsRead` + `save` (modelled as replacing the matching document in the
store). -/
def markNotificationReadHandler (userId : Nat) (store : List StoredNotification)
    (nid : Nat) (now : Nat) : List StoredNotification × NotifResponse :=
  match store.find? (fun n => n.id == nid) with
  | none => (store, .notFound)
  | some n =>
      if n.recipient == userId then
        (store.map (fun m => if m.id == nid then m.markAsRead now else m), .ok)
      else
        (store, .accessDenied)

/-- DELETE `/api/notifications/:id` from `routes/notifications.js`:
`findById`, ownership check, then `findByIdAndDelete`. -/
def deleteNotificationHandler (userId : Nat) (store : List StoredNotification)
    (nid : Nat) : List StoredNotification × NotifResponse :=
  match store.find? (fun n => n.id == nid) with
  | none => (store, .notFound)
  | some n =>
      if n.recipient == userId then
        (store.filter (fun m => !(m.id == nid)), .ok)
      else
        (store, .accessDenied)

/-- Modelled from the spec (section 4.3): the count of currently open
(non-terminal-status) issues assigned to a user, which the spec's
selection rule minimises. The source never computes such a count. -/
def openIssueCount (issues : List Issue) (userId : Nat) : Nat :=
  (issues.filter (fun i =>
    i.assignedTo == some userId && !(i.status == Status.verified_solved))).length

/-- The fixed edge table of spec section 4.1, written from the spec's
words, to be compared with `isValidStatusTransition`. -/
def specEdges41 : List (Status × Status) :=
  [(.pending, .in_progress), (.pending, .escalated),
   (.in_progress, .pending_verification), (.in_progress, .escalated),
   (.pending_verification, .verified_solved), (.pending_verification, .reopened),
   (.verified_solved, .reopened),
   (.escalated, .in_progress), (.escalated, .pending_verification),
   (.reopened, .in_progress), (.reopened, .escalated)]

/-- The transition check agrees with the spec's edge table for every role
(shared helper). -/
lemma valid_iff_mem_specEdges :
    ∀ (c n : Status) (r : Role),
      isValidStatusTransition c n r = true ↔ (c, n) ∈ specEdges41 := by
  decide

/-- C1: for every pair of current and requested status and every actor
role, `isValidStatusTransition` returns true iff the pair is an edge of
the fixed table of spec section 4.1, independent of the role. -/
theorem transition_matches_spec_table :
    ∀ (c n : Status) (r r' : Role),
      (isValidStatusTransition c n r = true ↔ (c, n) ∈ specEdges41) ∧
      isValidStatusTransition c n r = isValidStatusTransition c n r' := by
  decide

/-! Concrete sample documents used by witnesses and counterexamples. -/

/-- A high_admin actor. -/
def wAdmin : User :=
  { id := 1, role := .high_admin, assignedZones := [],
    department := some "Administration", isActive := true }

/-- An active low_admin covering Zone A. -/
def wZoneAdmin : User :=
  { id := 2, role := .low_admin, assignedZones := ["Zone A"],
    department := some "Public Works", isActive := true }

/-- A freshly reported, unassigned issue in Zone A. -/
def wIssue : Issue :=
  { id := 10, title := "Streetlight out", description := "The light at 5th and Main is out",
    category := "streetlight", priority := .medium, status := .pending,
    zone := "Zone A", address := "5th and Main", reportedBy := 3,
    assignedTo := none, assignedDepartment := none, assignedAt := none,
    dueDate := none, resolvedAt := none, verifiedAt := none, escalatedAt := none,
    statusHistory := [], comments := [] }

/-- C2: when the requested status is not reachable from the current one in
the spec's edge table, the status-update handler makes no observable
mutation (same issue document, no notifications, no success), and rejects
with the invalid-transition response whenever the actor passes the
permission gate. -/
theorem invalid_transition_makes_no_mutation (users : List User) (actor : User)
    (issue : Issue) (s : Status) (reason : String) (now : Nat)
    (h : (issue.status, s) ∉ specEdges41) :
    (updateStatusHandler users actor issue s reason now).issue = issue ∧
    (updateStatusHandler users actor issue s reason now).response ≠ UpdateResponse.success ∧
    (updateStatusHandler users actor issue s reason now).notifications = [] ∧
    (canUpdateStatus actor issue s = true →
      (updateStatusHandler users actor issue s reason now).response =
        UpdateResponse.invalidTransition) := by
  have hv : isValidStatusTransition issue.status s actor.role = false := by
    cases hb : isValidStatusTransition issue.status s actor.role
    · rfl
    · exact absurd ((valid_iff_mem_specEdges issue.status s actor.role).mp hb) h
  unfold updateStatusHandler
  cases hc : canUpdateStatus actor issue s <;> simp [hc, hv]

/-- C2 witness: a high_admin requesting `verified_solved` on a `pending`
issue is rejected with `invalidTransition` and the document is returned
unchanged. -/
theorem invalid_transition_makes_no_mutation_witness :
    (updateStatusHandler [] wAdmin wIssue Status.verified_solved "" 5).response =
      UpdateResponse.invalidTransition ∧
    (updateStatusHandler [] wAdmin wIssue Status.verified_solved "" 5).issue = wIssue :=
  ⟨(invalid_transition_makes_no_mutation [] wAdmin wIssue Status.verified_solved "" 5
      (by decide)).2.2.2 (by decide),
   (invalid_transition_makes_no_mutation [] wAdmin wIssue Status.verified_solved "" 5
      (by decide)).1⟩

/-- C3: evaluating issue creation with one eligible zone admin: auto
assignment advances the status field to `in_progress` by direct mutation
while the status history stays empty, so the saved document violates the
status-equals-last-history-entry invariant (there is no history entry at
all). -/
theorem autoAssign_mutates_status_without_history :
    ((createIssueHandler [wZoneAdmin] 3 11 "Pothole on Main"
        "Deep pothole near the crosswalk" "pothole" "Zone A" "Main St"
        Priority.medium 7).1.status = Status.in_progress) ∧
    ((createIssueHandler [wZoneAdmin] 3 11 "Pothole on Main"
        "Deep pothole near the crosswalk" "pothole" "Zone A" "Main St"
        Priority.medium 7).1.statusHistory = []) := by
  exact ⟨rfl, rfl⟩

/-- First eligible admin in directory order, carrying five open issues. -/
def wBusyAdmin : User :=
  { id := 1, role := .low_admin, assignedZones := ["Zone A"],
    department := some "Public Works", isActive := true }

/-- Second eligible admin in directory order, carrying no open issues. -/
def wFreeAdmin : User :=
  { id := 2, role := .low_admin, assignedZones := ["Zone A"],
    department := some "Parks", isActive := true }

/-- One open (in_progress) issue assigned to `wBusyAdmin`. -/
def wOpenIssue (k : Nat) : Issue :=
  { id := 100 + k, title := "Open issue", description := "An issue still being worked",
    category := "garbage", priority := .medium, status := .in_progress,
    zone := "Zone A", address := "Somewhere", reportedBy := 4,
    assignedTo := some 1, assignedDepartment := some "Public Works",
    assignedAt := some 1, dueDate := none, resolvedAt := none,
    verifiedAt := none, escalatedAt := none, statusHistory := [], comments := [] }

/-- The issue store: five open issues, all assigned to `wBusyAdmin`. -/
def wOpenIssues : List Issue :=
  [wOpenIssue 0, wOpenIssue 1, wOpenIssue 2, wOpenIssue 3, wOpenIssue 4]

/-- A new unassigned Zone A issue for the assignment router. -/
def wNewIssue : Issue :=
  { id := 12, title := "Sewage overflow", description := "Sewage overflowing on Oak Ave",
    category := "sewage", priority := .medium, status := .pending,
    zone := "Zone A", address := "Oak Ave", reportedBy := 3,
    assignedTo := none, assignedDepartment := none, assignedAt := none,
    dueDate := none, resolvedAt := none, verifiedAt := none, escalatedAt := none,
    statusHistory := [], comments := [] }

/-- C4: with two eligible active Zone A admins, the router assigns the
first one in directory order even though that admin has five open
assigned issues and the other has none: the sort key `assignedIssues` is
not a User schema path, so workload never enters the selection. -/
theorem autoAssign_ignores_open_issue_counts :
    (autoAssignIssue [wBusyAdmin, wFreeAdmin] wNewIssue 9).1.assignedTo =
      some wBusyAdmin.id ∧
    openIssueCount wOpenIssues wBusyAdmin.id = 5 ∧
    openIssueCount wOpenIssues wFreeAdmin.id = 0 := by
  exact ⟨rfl, rfl, rfl⟩

/-- A low_admin outside Zone A whose department matches the issue's
assigned department. -/
def wDeptAdmin : User :=
  { id := 5, role := .low_admin, assignedZones := ["Zone B"],
    department := some "Public Works", isActive := true }

/-- A Zone A issue assigned to someone else, department Public Works. -/
def wDeptIssue : Issue :=
  { id := 13, title := "Water leak", description := "Water leaking from a hydrant",
    category := "water_leak", priority := .medium, status := .in_progress,
    zone := "Zone A", address := "Pine St", reportedBy := 3,
    assignedTo := some 6, assignedDepartment := some "Public Works",
    assignedAt := some 2, dueDate := none, resolvedAt := none,
    verifiedAt := none, escalatedAt := none, statusHistory := [], comments := [] }

/-- C5 counterexample: a low_admin whose zone set excludes the issue's
zone and who is not its assignee is nevertheless granted the assign
action, because `canAssignIssue` also grants on a department match. -/
theorem la_outside_zone_can_assign_by_department :
    wDeptAdmin.role = Role.low_admin ∧
    wDeptAdmin.assignedZones.contains wDeptIssue.zone = false ∧
    wDeptIssue.assignedTo ≠ some wDeptAdmin.id ∧
    canAssignIssue wDeptAdmin wDeptIssue = true := by
  refine ⟨rfl, rfl, by decide, rfl⟩

/-- C5 amended: a low_admin whose zone set excludes the issue's zone, who
is not its assignee, and whose department also differs from the issue's
assigned department, is denied assign, status update, comment access, and
work-proof upload. -/
theorem la_outside_zone_denied_all (u : User) (i : Issue) (s : Status)
    (hr : u.role = Role.low_admin)
    (hz : u.assignedZones.contains i.zone = false)
    (ha : i.assignedTo ≠ some u.id)
    (hd : u.department ≠ i.assignedDepartment) :
    canAssignIssue u i = false ∧ canUpdateStatus u i s = false ∧
    hasIssueAccess u i = false ∧ canAddWorkProof u i = false := by
  have ha' : (i.assignedTo == some u.id) = false := by
    simpa [beq_eq_false_iff_ne] using ha
  have hd' : (u.department == i.assignedDepartment) = false := by
    simpa [beq_eq_false_iff_ne] using hd
  have hz' : i.zone ∉ u.assignedZones := by simpa using hz
  simp [canAssignIssue, canUpdateStatus, hasIssueAccess, canAddWorkProof,
    hr, hz', ha', hd']

/-- An issue in Zone B assigned to user 1, department Public Works. -/
def wFarIssue : Issue :=
  { id := 14, title := "Broken swing", description := "Swing broken at the park",
    category := "parks", priority := .low, status := .in_progress,
    zone := "Zone B", address := "City Park", reportedBy := 3,
    assignedTo := some 1, assignedDepartment := some "Public Works",
    assignedAt := some 2, dueDate := none, resolvedAt := none,
    verifiedAt := none, escalatedAt := none, statusHistory := [], comments := [] }

/-- C5 witness: `wFreeAdmin` (zones Zone A, department Parks, not the
assignee) is denied all four actions on the Zone B issue. -/
theorem la_outside_zone_denied_all_witness :
    canAssignIssue wFreeAdmin wFarIssue = false ∧
    canUpdateStatus wFreeAdmin wFarIssue Status.in_progress = false ∧
    hasIssueAccess wFreeAdmin wFarIssue = false ∧
    canAddWorkProof wFreeAdmin wFarIssue = false :=
  la_outside_zone_denied_all wFreeAdmin wFarIssue Status.in_progress
    rfl (by decide) (by decide) (by decide)

/-- C6: a citizen is granted a status update exactly when they reported
the issue and the requested status is `pending_verification` or
`reopened`, and a citizen is never granted the assign action. -/
theorem citizen_status_gate_and_no_assign (u : User) (i : Issue) (s : Status)
    (hr : u.role = Role.citizen) :
    (canUpdateStatus u i s = true ↔
      (i.reportedBy = u.id ∧
        (s = Status.pending_verification ∨ s = Status.reopened))) ∧
    canAssignIssue u i = false := by
  constructor
  · cases s <;> simp [canUpdateStatus, hr]
  · simp [canAssignIssue, hr]

/-- A citizen actor who reported `wIssue`. -/
def wCitizen : User :=
  { id := 3, role := .citizen, assignedZones := [], department := none,
    isActive := true }

/-- C6 witness: the reporting citizen may request `pending_verification`
on their own pending issue but is never allowed to assign it. -/
theorem citizen_status_gate_and_no_assign_witness :
    (canUpdateStatus wCitizen wIssue Status.pending_verification = true ↔
      (wIssue.reportedBy = wCitizen.id ∧
        (Status.pending_verification = Status.pending_verification ∨
         Status.pending_verification = Status.reopened))) ∧
    canAssignIssue wCitizen wIssue = false :=
  citizen_status_gate_and_no_assign wCitizen wIssue Status.pending_verification rfl

/-- A high_admin directory entry for notification fan-out. -/
def wHighAdmin : User :=
  { id := 9, role := .high_admin, assignedZones := [],
    department := some "Administration", isActive := true }

/-- An in_progress Zone A issue assigned to `wZoneAdmin` (id 2). -/
def wEscIssue : Issue :=
  { id := 15, title := "Road damage", description := "Large crack across the road",
    category := "road_damage", priority := .medium, status := .in_progress,
    zone := "Zone A", address := "Elm St", reportedBy := 3,
    assignedTo := some 2, assignedDepartment := some "Public Works",
    assignedAt := some 2, dueDate := none, resolvedAt := none,
    verifiedAt := none, escalatedAt := none, statusHistory := [], comments := [] }

/-- C7 counterexample: escalating an issue that has an assignee produces
records only for the high_admin directory entries; no record addresses
the assignee. -/
theorem escalation_omits_assignee :
    wEscIssue.assignedTo = some wZoneAdmin.id ∧
    (handleStatusChangeNotifications [wHighAdmin, wZoneAdmin] wEscIssue
        Status.escalated).map (fun r => r.recipient) = [wHighAdmin.id] ∧
    ((handleStatusChangeNotifications [wHighAdmin, wZoneAdmin] wEscIssue
        Status.escalated).all (fun r => !(r.recipient == wZoneAdmin.id))) = true := by
  exact ⟨rfl, rfl, rfl⟩

/-- C7 amended: on escalation the dispatcher produces exactly one record
per high_admin user, in directory order, all with type `issue_escalated`
and priority `high`; the assignee receives no additional record. -/
theorem escalation_notifies_each_high_admin (users : List User) (issue : Issue) :
    ((handleStatusChangeNotifications users issue Status.escalated).map
        (fun r => r.recipient) = (highAdmins users).map (fun u => u.id)) ∧
    ((handleStatusChangeNotifications users issue Status.escalated).all
        (fun r => r.priority == NotifPriority.high &&
                  r.type == NotifType.issue_escalated)) = true := by
  constructor
  · simp [handleStatusChangeNotifications, List.map_map]
  · simp [handleStatusChangeNotifications, List.all_eq_true, List.mem_map]

/-- An urgent-priority issue currently pending, reported by user 3. -/
def wUrgentIssue : Issue :=
  { id := 16, title := "Gas-level sewage leak", description := "Severe sewage leak flooding the street",
    category := "sewage", priority := .urgent, status := .pending,
    zone := "Zone A", address := "3rd Ave", reportedBy := 3,
    assignedTo := some 2, assignedDepartment := some "Public Works",
    assignedAt := some 2, dueDate := none, resolvedAt := none,
    verifiedAt := none, escalatedAt := none, statusHistory := [], comments := [] }

/-- C8 counterexample: an urgent issue moving to `in_progress` produces a
reporter notification whose stored priority is the schema default
`medium`, not `high`. -/
theorem urgent_in_progress_notification_medium :
    wUrgentIssue.priority = Priority.urgent ∧
    (handleStatusChangeNotifications [wHighAdmin] wUrgentIssue
        Status.in_progress).map (fun r => r.priority) = [NotifPriority.medium] := by
  exact ⟨rfl, rfl⟩

/-- C8 amended: status-change notification records never read the issue's
priority (their priorities are fixed per event and recipient class),
while issue-creation fan-out and the auto-assignment record do escalate
an urgent issue to notification priority `high`. -/
theorem statuschange_priority_fixed_creation_urgent_high
    (users : List User) (issue : Issue) (p q : Priority) (st : Status)
    (reporter issueId now : Nat) (t d c z a : String) :
    (handleStatusChangeNotifications users { issue with priority := p } st =
     handleStatusChangeNotifications users { issue with priority := q } st) ∧
    (((createIssueHandler users reporter issueId t d c z a Priority.urgent now).2.all
        (fun r => r.priority == NotifPriority.high)) = true) := by
  constructor
  · obtain ⟨iid, ititle, idesc, icat, ipri, ist, izone, iaddr, irep, iassn,
      idept, iat, idd, ira, iva, iea, ihist, icom⟩ := issue
    cases st <;> cases iassn <;> rfl
  · simp only [createIssueHandler, List.all_append, Bool.and_eq_true]
    constructor
    · unfold autoAssignIssue
      cases h : (users.filter (fun u =>
          u.role == Role.low_admin && u.assignedZones.contains z && u.isActive)).head? <;>
        simp [h]
    · simp only [List.all_eq_true, List.mem_map]
      intro x hx
      obtain ⟨u, hu, hxu⟩ := hx
      subst hxu
      rfl

/-- C9: every comment the handler appends has its internal flag forced to
false when the author is a citizen, and a stored internal flag of true is
only possible for a low_admin or high_admin author. -/
theorem comment_internal_flag_forced (actor : User) (issue : Issue)
    (text : String) (req : Bool) (now : Nat) :
    (((addCommentHandler actor issue text req now).1.comments.drop
        issue.comments.length).all
      (fun c =>
        (!(actor.role == Role.citizen) || (c.isInternal == false)) &&
        (!c.isInternal ||
          (actor.role == Role.low_admin || actor.role == Role.high_admin)))) = true := by
  unfold addCommentHandler
  by_cases h : hasIssueAccess actor issue = true
  · simp only [h, if_true]
    rw [List.drop_left]
    cases hr : actor.role <;> cases req <;> simp [hr]
  · have h' : hasIssueAccess actor issue = false := by
      simpa using h
    simp [h', List.drop_length]

/-- A notification addressed to user 7. -/
def wNotif : StoredNotification :=
  { id := 21, recipient := 7, type := .issue_updated,
    title := "Issue In Progress",
    message := "Your reported issue is now being worked on",
    relatedIssue := some 10, isRead := false, readAt := none,
    priority := .medium }

/-- A second notification addressed to user 5. -/
def wNotif2 : StoredNotification :=
  { id := 22, recipient := 5, type := .comment_added,
    title := "New Comment",
    message := "A new comment was added to your issue",
    relatedIssue := some 10, isRead := false, readAt := none,
    priority := .medium }

/-- The notification store holding both sample documents. -/
def wNotifStore : List StoredNotification := [wNotif, wNotif2]

/-- Replacing the matching document preserves what `find?` returns, up to
`markAsRead` (shared helper for the notification routes). -/
lemma find?_map_markAsRead (nid now : Nat) :
    ∀ (store : List StoredNotification) (n : StoredNotification),
      store.find? (fun m => m.id == nid) = some n →
      (store.map (fun m => if m.id == nid then m.markAsRead now else m)).find?
          (fun m => m.id == nid) = some (n.markAsRead now) := by
  intro store
  induction store with
  | nil => intro n h; simp at h
  | cons a t ih =>
      intro n h
      cases ha : (a.id == nid) with
      | true =>
          rw [@List.find?_cons_of_pos _ (fun m => m.id == nid) a t ha] at h
          injection h with h
          subst h
          simp only [List.map_cons, ha, if_true]
          exact @List.find?_cons_of_pos _ (fun m : StoredNotification => m.id == nid)
            (a.markAsRead now) _ ha
      | false =>
          have ha' : ¬((fun m : StoredNotification => m.id == nid) a = true) := by
            simp only [ha]
            exact Bool.false_ne_true
          rw [@List.find?_cons_of_neg _ (fun m => m.id == nid) a t ha'] at h
          have step : (a :: t).map
              (fun m => if (m.id == nid) = true then m.markAsRead now else m) =
              a :: t.map (fun m => if (m.id == nid) = true then m.markAsRead now else m) := by
            simp [ha]
            intro hc
            rw [hc] at ha
            simp at ha
          rw [step, @List.find?_cons_of_neg _ (fun m => m.id == nid) a _ ha']
          exact ih n h

/-- C10: for a notification found in the store, a requester who is not
its recipient gets access denied from both the mark-as-read and the
delete route with the store untouched; the recipient gets a successful
mark-as-read that stores the document with the read flag set and the
read timestamp recorded. -/
theorem notification_owner_gate (userId : Nat) (store : List StoredNotification)
    (nid now : Nat) (n : StoredNotification)
    (hf : store.find? (fun m => m.id == nid) = some n) :
    (n.recipient ≠ userId →
      markNotificationReadHandler userId store nid now = (store, NotifResponse.accessDenied) ∧
      deleteNotificationHandler userId store nid = (store, NotifResponse.accessDenied)) ∧
    (n.recipient = userId →
      (markNotificationReadHandler userId store nid now).2 = NotifResponse.ok ∧
      (markNotificationReadHandler userId store nid now).1.find?
          (fun m => m.id == nid) = some (n.markAsRead now) ∧
      (n.markAsRead now).isRead = true ∧
      (n.markAsRead now).readAt = some now) := by
  constructor
  · intro hne
    have hne' : (n.recipient == userId) = false := by
      simpa [beq_eq_false_iff_ne] using hne
    unfold markNotificationReadHandler deleteNotificationHandler
    rw [hf]
    simp [hne']
  · intro he
    have he' : (n.recipient == userId) = true := by simp [he]
    refine ⟨?_, ?_, rfl, rfl⟩
    · unfold markNotificationReadHandler
      rw [hf]
      simp [he']
    · unfold markNotificationReadHandler
      rw [hf]
      simp only [he', if_true]
      exact find?_map_markAsRead nid now store n hf

/-- C10 witness: user 5 is denied marking or deleting user 7's
notification, and user 7 marking their own notification succeeds with the
read flag and timestamp stored. -/
theorem notification_owner_gate_witness :
    (markNotificationReadHandler 5 wNotifStore 21 40 =
      (wNotifStore, NotifResponse.accessDenied) ∧
     deleteNotificationHandler 5 wNotifStore 21 =
      (wNotifStore, NotifResponse.accessDenied)) ∧
    ((markNotificationReadHandler 7 wNotifStore 21 40).2 = NotifResponse.ok ∧
     (markNotificationReadHandler 7 wNotifStore 21 40).1.find?
        (fun m => m.id == 21) = some (wNotif.markAsRead 40) ∧
     (wNotif.markAsRead 40).isRead = true ∧
     (wNotif.markAsRead 40).readAt = some 40) :=
  ⟨(notification_owner_gate 5 wNotifStore 21 40 wNotif (by decide)).1 (by decide),
   (notification_owner_gate 7 wNotifStore 21 40 wNotif (by decide)).2 (by decide)⟩

end CivicReport
